import Mathlib

/-
Shallow embedding of `custom_components/renpho/api_renpho.py` (class
`RenphoWeight`) and verification of the specification's claims about it.

Python dictionaries/objects are embedded as Lean structures, dynamic values
as small inductive types, raised exceptions as `Except` errors carrying the
exception class name, and the network as an explicit script of outcomes
threaded through each function.
-/

namespace Renpho

set_option maxRecDepth 100000
set_option maxHeartbeats 2000000

/-- Dynamic Python value for fields that may hold None, a string, or an
integer: the client's `user_id` starts as a configured string (or None) and
may later be replaced by the integer id from the login payload. -/
inductive PyVal where
  | pynone
  | pystr (s : String)
  | pyint (n : Int)
deriving Repr, DecidableEq

/-- A raised Python exception, identified by its class name and message.
The repository defines `AuthenticationError`, `APIError` and `ClientSSLError`
(api_renpho.py lines 675-684); exceptions raised by libraries keep their own
class names. -/
structure PyExc where
  cls : String
  msg : String
deriving Repr, DecidableEq

/-- The exception classes defined by api_renpho.py (lines 675-684). -/
def renphoExceptionClasses : List String :=
  ["AuthenticationError", "APIError", "ClientSSLError"]

/-- Modelled from the spec: a girth entry is "{ metric name → numeric value
(various named girths), timestamp }"; the `Girth` record class lives in
api_object.py, which is not under src/. `values` maps attribute names such
as "waist_value" to a numeric value or Python None; a name with no pair in
the list models an absent attribute. -/
structure GirthEntry where
  values : List (String × Option ℚ)
  time_stamp : Int
deriving Repr, DecidableEq

/-- Python `getattr(g, key, dflt)` on a girth entry: the stored value when
the attribute exists (possibly None), otherwise the default. -/
def getattrD (g : GirthEntry) (key : String) (dflt : Option ℚ) : Option ℚ :=
  match g.values.lookup key with
  | some v => v
  | none => dflt

/-- The filter of api_renpho.py line 588:
`getattr(g, f"{metric}_value", 0) not in (None, 0.0)`. -/
def girthQualifies (metric : String) (g : GirthEntry) : Bool :=
  match getattrD g (metric ++ "_value") (some 0) with
  | none => false
  | some v => decide (v ≠ 0)

/-- Stable insertion into a list kept in descending `time_stamp` order; ties
keep the inserted (earlier) element first. -/
def insertByTs (x : GirthEntry) : List GirthEntry → List GirthEntry
  | [] => [x]
  | y :: ys => if y.time_stamp ≤ x.time_stamp then x :: y :: ys else y :: insertByTs x ys

/-- Python `sorted(l, key=lambda x: x.time_stamp, reverse=True)` of
api_renpho.py line 588: a stable sort into descending timestamp order. -/
def sortByTsDesc (l : List GirthEntry) : List GirthEntry := l.foldr insertByTs []

/-- The loop of api_renpho.py lines 589-593: return the first entry's value
where `getattr(girth, f"{metric}_value", None)` is neither None nor zero. -/
def firstGirthValue (metric : String) : List GirthEntry → Option ℚ
  | [] => none
  | g :: gs =>
    match getattrD g (metric ++ "_value") none with
    | some v => if v ≠ 0 then some v else firstGirthValue metric gs
    | none => firstGirthValue metric gs

/-- Girth branch of `get_specific_metric` (api_renpho.py lines 584-593) for an
already-cached dataset (`self.girth_info` already populated, so no lazy fetch
runs): filter to entries whose metric attribute is non-absent and non-zero,
sort by timestamp descending, return the first qualifying value; an empty or
exhausted list yields Python None. -/
def get_specific_metric_girth (metric : String) (girth_info : List GirthEntry) : Option ℚ :=
  if girth_info.isEmpty then none
  else firstGirthValue metric (sortByTsDesc (girth_info.filter (girthQualifies metric)))

/-- The fixed RSA public key `CONF_PUBLIC_KEY` from const.py (lines 69-74). -/
def CONF_PUBLIC_KEY : String :=
  "-----BEGIN PUBLIC KEY-----\nMIGfMA0GCSqGSIb3DQEBAQUAA4GNADCBiQKBgQC+25I2upukpfQ7rIaaTZtVE744\nu2zV+HaagrUhDOTq8fMVf9yFQvEZh2/HKxFudUxP0dXUa8F6X4XmWumHdQnum3zm\nJr04fz2b2WCcN0ta/rbF2nYAnMVAk2OJVZAMudOiMWhcxV1nNJiKgTNNr13de0EQ\nIiOL2CUBzu+HmIfUbQIDAQAB\n-----END PUBLIC KEY-----"

/-- UTF-8 encoding of one character (Python `str.encode("utf-8")`, per char). -/
def utf8Char (c : Char) : List Nat :=
  let n := c.toNat
  if n < 128 then [n]
  else if n < 2048 then [192 + n / 64, 128 + n % 64]
  else if n < 65536 then [224 + n / 4096, 128 + n / 64 % 64, 128 + n % 64]
  else [240 + n / 262144, 128 + n / 4096 % 64, 128 + n / 64 % 64, 128 + n % 64]

/-- UTF-8 bytes of a string (Python `password.encode("utf-8")`). -/
def utf8Bytes (s : String) : List Nat :=
  s.toList.foldr (fun c acc => utf8Char c ++ acc) []

/-- The standard base64 alphabet, as characters. -/
def base64Alphabet : List Char :=
  "ABCDEFGHIJKLMNOPQRSTUVWXYZabcdefghijklmnopqrstuvwxyz0123456789+/".toList

/-- The base64 digit for a 6-bit value. -/
def b64char (n : Nat) : Char := base64Alphabet.getD n 'A'

/-- Standard base64 encoding of a byte list (Python `base64.b64encode`). -/
def b64encode : List Nat → String
  | [] => ""
  | [a] => String.mk [b64char (a / 4), b64char (a % 4 * 16), '=', '=']
  | [a, b] => String.mk [b64char (a / 4), b64char (a % 4 * 16 + b / 16), b64char (b % 16 * 4), '=']
  | a :: b :: c :: rest =>
      String.mk [b64char (a / 4), b64char (a % 4 * 16 + b / 16),
        b64char (b % 16 * 4 + c / 64), b64char (c % 64)] ++ b64encode rest

/-- The PEM header that a public key must start with. -/
def pemHeaderChars : List Char := "-----BEGIN PUBLIC KEY-----".toList

/-- Contract-level model of the external crypto library call
`RSA.importKey(public_key_str)`: importing succeeds exactly on PEM-shaped
input and yields the modulus size in bytes (128 for the repository's fixed
1024-bit key); a malformed key raises the library's own `ValueError`. -/
def rsaImportKey (pem : String) : Option Nat :=
  if pemHeaderChars.isPrefixOf pem.toList then some 128 else none

/-- Contract-level model of `PKCS1_v1_5.new(rsa_key).encrypt(msg)`: PKCS#1
v1.5 encryption succeeds exactly when the message fits the modulus minus the
11 padding bytes; the ciphertext bytes themselves are abstracted as the
message bytes (no claim depends on their value, only on the base64 wrapping
of whatever the cipher returned). -/
def pkcs1Encrypt (kLen : Nat) (msg : List Nat) : Option (List Nat) :=
  if msg.length + 11 ≤ kLen then some msg else none

/-- `RenphoWeight.encrypt_password` (api_renpho.py lines 196-204): import the
key, encrypt, return the base64 ciphertext; on any failure it logs and
re-raises the underlying library exception (bare `raise`). The module
defines no EncryptionError class. -/
def encrypt_password (public_key_str : String) (password : String) : Except PyExc String :=
  match rsaImportKey public_key_str with
  | none => .error ⟨"ValueError", "RSA key format is not supported"⟩
  | some kLen =>
    match pkcs1Encrypt kLen (utf8Bytes password) with
    | none => .error ⟨"ValueError", "Plaintext is too long."⟩
    | some ct => .ok (b64encode ct)

/-- Modelled from the spec: one weight measurement entry ("the first (most
recent) entry of the returned ordered history" carries the current weight and
its timestamp); the `MeasurementDetail` record class lives in api_object.py,
which is not under src/. -/
structure MeasurementDetail where
  weight : ℚ
  time_stamp : Int
  internal_model : String
deriving Repr, DecidableEq

/-- Modelled from the spec: a device-bind record (device info payload); the
`DeviceBind` record class lives in api_object.py, which is not under src/. -/
structure DeviceBind where
  mac : String
deriving Repr, DecidableEq

/-- Modelled from the spec: a girth-goal entry "{ girth type, goal value,
goal-setup timestamp }"; the `GirthGoal` record class lives in api_object.py,
which is not under src/. -/
structure GirthGoalEntry where
  girth_type : String
  goal_value : Option ℚ
  setup_goal_at : Int
deriving Repr, DecidableEq

/-- A parsed JSON response body. Fields the code reads are embedded directly;
`none` models an absent key (`"k" in parsed` is `isSome`, `parsed.get("k")`
is the field). Payload lists (`last_ary`, `device_binds_ary`, `girths`,
`girth_goals`) are modelled from the spec since their record classes live in
api_object.py, which is not under src/. -/
structure ApiResponse where
  status_code : Option String
  status_message : Option String
  terminal_user_session_key : Option String
  id : Option Int
  last_ary : Option (List MeasurementDetail)
  device_binds_ary : Option (List DeviceBind)
  girths : Option (List GirthEntry)
  girth_goals : Option (List GirthGoalEntry)
deriving Repr, DecidableEq

/-- An `ApiResponse` with every field absent. -/
def emptyResp : ApiResponse := ⟨none, none, none, none, none, none, none, none⟩

/-- The mutable attributes of a `RenphoWeight` instance (api_renpho.py lines
50-80). Python's leading underscores (`_last_updated_girth`, ...) are dropped
in the Lean field names. `refresh_interval` is not an attribute `__init__`
creates (it assigns `self.refresh`); `refresh_interval` is read exactly once,
in `polling_loop` line 644, and assigned nowhere in the repository, so it is
embedded as an `Option` that stays `none`: reading it in Python raises
AttributeError. `time_stamp` likewise only comes into existence on a
successful measurement fetch (line 355). -/
structure RenphoWeight where
  public_key : Option String
  email : String
  password : String
  user_id : PyVal
  refresh : Int
  refresh_interval : Option Int
  token : Option String
  polling : Bool
  login_data : Option ApiResponse
  weight_info : Option MeasurementDetail
  weight_history : List MeasurementDetail
  weight : Option ℚ
  time_stamp : Option Int
  device_info : Option (List DeviceBind)
  girth_info : Option (List GirthEntry)
  girth_goal : Option (List GirthGoalEntry)
  growth_record : Option ApiResponse
  last_updated_weight : Option Int
  last_updated_girth : Option Int
  last_updated_girth_goal : Option Int
  last_updated_growth_record : Option Int
  auth_in_progress : Bool
  is_polling_active : Bool
  proxy : Option String
  polling_task : Option Nat
deriving Repr, DecidableEq

/-- `RenphoWeight.__init__` (api_renpho.py lines 50-82): a configured empty
user id string becomes None; the public key is the fixed constant; all caches
start empty and both flags start false. -/
def RenphoWeight.init (email password : String) (user_id : PyVal) (refresh : Int)
    (proxy : Option String) : RenphoWeight :=
  { public_key := some CONF_PUBLIC_KEY
    email := email
    password := password
    user_id := if user_id = PyVal.pystr "" then PyVal.pynone else user_id
    refresh := refresh
    refresh_interval := none
    token := none
    polling := false
    login_data := none
    weight_info := none
    weight_history := []
    weight := none
    time_stamp := none
    device_info := none
    girth_info := none
    girth_goal := none
    growth_record := none
    last_updated_weight := none
    last_updated_girth := none
    last_updated_girth_goal := none
    last_updated_growth_record := none
    auth_in_progress := false
    is_polling_active := false
    proxy := proxy
    polling_task := none }

/-- Outcome of one HTTP exchange as the code observes it: a transport-level
error (`aiohttp.ClientResponseError` / `ClientConnectionError`, including a
failing `raise_for_status()`), a body that parsed to None, or a parsed body. -/
inductive HttpOutcome where
  | transportError (msg : String)
  | nullBody
  | body (r : ApiResponse)
deriving Repr, DecidableEq

/-- The network environment: scripted outcomes for successive `check_proxy`
probes, successive sign-in POSTs (consumed by `auth`), and successive
requests to the target url of `_request`. An exhausted script behaves as an
unreachable network (probe fails / connection error). -/
structure NetEnv where
  proxyOutcomes : List Bool
  signinOutcomes : List HttpOutcome
  httpOutcomes : List HttpOutcome
deriving Repr, DecidableEq

/-- Consume the next `check_proxy` outcome. -/
def takeProxy (env : NetEnv) : Bool × NetEnv :=
  match env.proxyOutcomes with
  | [] => (false, env)
  | b :: rest => (b, { env with proxyOutcomes := rest })

/-- Consume the next sign-in POST outcome. -/
def takeSignin (env : NetEnv) : HttpOutcome × NetEnv :=
  match env.signinOutcomes with
  | [] => (HttpOutcome.transportError "no network", env)
  | o :: rest => (o, { env with signinOutcomes := rest })

/-- Consume the next target-url request outcome. -/
def takeHttp (env : NetEnv) : HttpOutcome × NetEnv :=
  match env.httpOutcomes with
  | [] => (HttpOutcome.transportError "no network", env)
  | o :: rest => (o, { env with httpOutcomes := rest })

/-- Result of a call to `auth`: the Python return value (`True`, the guard's
`False`, or the fall-through None) or a raised exception, together with the
mutated instance, the remaining environment and the number of network
requests performed (proxy probes plus sign-in POSTs). -/
structure AuthResult where
  ret : Except PyExc (Option Bool)
  st : RenphoWeight
  env : NetEnv
  netRequests : Nat
deriving Repr

/-- Python `self.login_data.get("id", None)` as a dynamic value. -/
def idToPyVal : Option Int → PyVal
  | some i => PyVal.pyint i
  | none => PyVal.pynone

/-- One pass of `for attempt in range(3)` in `auth` (api_renpho.py lines
243-300), with `fuel` the attempts left after this one. Every exit from an
iteration runs the `finally`, clearing `auth_in_progress`; on a transport
error only the last attempt raises AuthenticationError, earlier ones sleep
and retry; a body matching no branch lets the iteration end and the loop
move on; exhausting the loop returns Python None. -/
def authAttempts : Nat → RenphoWeight → NetEnv → Nat → AuthResult
  | 0, st, env, n => { ret := .ok none, st := st, env := env, netRequests := n }
  | fuel + 1, st, env, n =>
    match { st with token := none }, takeProxy env with
    | st1, (false, env1) =>
      { ret := .error ⟨"APIError", "Proxy check failed. Aborting authentication."⟩,
        st := { st1 with auth_in_progress := false }, env := env1, netRequests := n + 1 }
    | st1, (true, env1) =>
      match takeSignin env1 with
      | (HttpOutcome.transportError _, env2) =>
        if fuel = 0 then
          { ret := .error ⟨"AuthenticationError", "Authentication failed after retries."⟩,
            st := { st1 with auth_in_progress := false }, env := env2, netRequests := n + 2 }
        else
          authAttempts fuel { st1 with auth_in_progress := false } env2 (n + 2)
      | (HttpOutcome.nullBody, env2) =>
        { ret := .error ⟨"AuthenticationError", "Authentication failed. No response received."⟩,
          st := { st1 with auth_in_progress := false }, env := env2, netRequests := n + 2 }
      | (HttpOutcome.body r, env2) =>
        if r.status_code = some "50000" ∧ r.status_message = some "Email was not registered" then
          { ret := .error ⟨"AuthenticationError", "Email was not registered."⟩,
            st := { st1 with auth_in_progress := false }, env := env2, netRequests := n + 2 }
        else if r.status_code = some "500" ∧ r.status_message = some "Internal Server Error" then
          { ret := .error ⟨"AuthenticationError", "Bad Password or Internal Server Error."⟩,
            st := { st1 with auth_in_progress := false }, env := env2, netRequests := n + 2 }
        else
          match r.terminal_user_session_key with
          | none =>
            { ret := .error ⟨"AuthenticationError", "Authentication failed: session key missing"⟩,
              st := { st1 with auth_in_progress := false }, env := env2, netRequests := n + 2 }
          | some key =>
            if r.status_code = some "20000" ∧ r.status_message = some "ok" then
              { ret := .ok (some true),
                st :=
                  { st1 with
                    token := some key, login_data := some r,
                    user_id := if st1.user_id = PyVal.pynone then idToPyVal r.id
                      else st1.user_id,
                    auth_in_progress := false },
                env := env2, netRequests := n + 2 }
            else
              authAttempts fuel { st1 with auth_in_progress := false } env2 (n + 2)

/-- `RenphoWeight.auth` (api_renpho.py lines 223-300): guard on
`auth_in_progress`, then set it; empty email/password or a missing public key
raise AuthenticationError before any network traffic (and before the
`try`/`finally` of the attempt loop, so the flag stays set); a failing
`encrypt_password` propagates its exception the same way; otherwise run up to
three sign-in attempts. -/
def auth (st : RenphoWeight) (env : NetEnv) : AuthResult :=
  if st.auth_in_progress then
    { ret := .ok (some false), st := st, env := env, netRequests := 0 }
  else
    let st1 : RenphoWeight := { st with auth_in_progress := true }
    if st1.email = "" ∨ st1.password = "" then
      { ret := .error ⟨"AuthenticationError", "Email and password are required for authentication."⟩,
        st := st1, env := env, netRequests := 0 }
    else
      match st1.public_key with
      | none =>
        { ret := .error ⟨"AuthenticationError", "Public key is None."⟩,
          st := st1, env := env, netRequests := 0 }
      | some pk =>
        match encrypt_password pk st1.password with
        | .error e => { ret := .error e, st := st1, env := env, netRequests := 0 }
        | .ok _ => authAttempts 3 st1 env 0

/-- Result of a call to `_request`: the parsed body on success, Python None
when the retry budget falls to zero and the `while` loop is left (the
function then ends without a `return`), or a raised exception; plus the
mutated instance, remaining environment, the number of requests issued to
the target url, the number of `auth()` invocations, and the retry counter's
final value. -/
structure ReqResult where
  ret : Except PyExc (Option ApiResponse)
  st : RenphoWeight
  env : NetEnv
  httpRequests : Nat
  authCalls : Nat
  retriesLeft : Nat
deriving Repr

/-- The `while retries > 0` loop of `_request` (api_renpho.py lines 159-194).
Each iteration first evaluates
`if not self.token and not url.endswith("sign_in.json") or not skip_auth:`
and, when it holds, calls `auth()` (raising AuthenticationError unless it
returned True); then issues the request. A transport error raises APIError;
a body with status "40302" clears `skip_auth`, calls `auth()` again,
decrements `retries` and continues; "50000" raises APIError; "20000"/"ok"
returns the body; anything else raises APIError. Leaving the loop returns
Python None. -/
def requestLoop : Nat → Bool → Bool → RenphoWeight → NetEnv → Nat → Nat → ReqResult
  | 0, _, _, st, env, reqs, auths =>
    { ret := .ok none, st := st, env := env, httpRequests := reqs, authCalls := auths,
      retriesLeft := 0 }
  | retries + 1, skipAuth, urlIsSignIn, st, env, reqs, auths =>
    match
      (if (st.token.isNone && !urlIsSignIn) || !skipAuth then
        match auth st env with
        | ⟨.error e, ast, aenv, _⟩ => (Except.error e, ast, aenv, 1)
        | ⟨.ok r, ast, aenv, _⟩ =>
          if r = some true then (Except.ok (), ast, aenv, 1)
          else (Except.error (⟨"AuthenticationError",
            "Authentication failed. Unable to proceed with the request."⟩ : PyExc),
            ast, aenv, 1)
      else (Except.ok (), st, env, 0) :
        Except PyExc Unit × RenphoWeight × NetEnv × Nat)
    with
    | (.error e, st1, env1, ac) =>
      { ret := .error e, st := st1, env := env1, httpRequests := reqs,
        authCalls := auths + ac, retriesLeft := retries + 1 }
    | (.ok _, st1, env1, ac) =>
      match takeHttp env1 with
      | (HttpOutcome.transportError _, env2) =>
        { ret := .error ⟨"APIError", "API request failed"⟩, st := st1, env := env2,
          httpRequests := reqs + 1, authCalls := auths + ac, retriesLeft := retries + 1 }
      | (HttpOutcome.nullBody, env2) =>
        { ret := .error ⟨"AttributeError", "NoneType object has no attribute get"⟩,
          st := st1, env := env2, httpRequests := reqs + 1, authCalls := auths + ac,
          retriesLeft := retries + 1 }
      | (HttpOutcome.body r, env2) =>
        if r.status_code = some "40302" then
          match auth st1 env2 with
          | ⟨.error e, ast, aenv, _⟩ =>
            { ret := .error e, st := ast, env := aenv, httpRequests := reqs + 1,
              authCalls := auths + ac + 1, retriesLeft := retries + 1 }
          | ⟨.ok v, ast, aenv, _⟩ =>
            if v = some true then
              requestLoop retries false urlIsSignIn ast aenv (reqs + 1) (auths + ac + 1)
            else
              { ret := .error ⟨"AuthenticationError",
                  "Authentication failed. Unable to proceed with the request."⟩,
                st := ast, env := aenv, httpRequests := reqs + 1,
                authCalls := auths + ac + 1, retriesLeft := retries + 1 }
        else if r.status_code = some "50000" then
          { ret := .error ⟨"APIError", "Internal server error"⟩, st := st1, env := env2,
            httpRequests := reqs + 1, authCalls := auths + ac, retriesLeft := retries + 1 }
        else if r.status_code = some "20000" ∧ r.status_message = some "ok" then
          { ret := .ok (some r), st := st1, env := env2, httpRequests := reqs + 1,
            authCalls := auths + ac, retriesLeft := retries + 1 }
        else
          { ret := .error ⟨"APIError", "API request failed"⟩, st := st1, env := env2,
            httpRequests := reqs + 1, authCalls := auths + ac, retriesLeft := retries + 1 }

/-- `RenphoWeight._request` (api_renpho.py lines 142-194): a failing
`check_proxy` probe raises APIError before any attempt; otherwise run the
retry loop with the given budget (default 3). `urlIsSignIn` tells whether
the url ends in "sign_in.json". -/
def request (st : RenphoWeight) (env : NetEnv) (retries : Nat) (skipAuth : Bool)
    (urlIsSignIn : Bool) : ReqResult :=
  match takeProxy env with
  | (false, env1) =>
    { ret := .error ⟨"APIError", "Proxy check failed. Aborting authentication."⟩,
      st := st, env := env1, httpRequests := 0, authCalls := 0, retriesLeft := retries }
  | (true, env1) => requestLoop retries skipAuth urlIsSignIn st env1 0 0

/-- Outcome of the `_request` call as seen inside a fetcher's `try`. -/
abbrev ReqOutcome := Except PyExc (Option ApiResponse)

/-- Body of `get_measurements` (api_renpho.py lines 335-371) applied to the
outcome of its `_request` call: the surrounding `try`/`except Exception`
converts any raised exception into a logged None; an absent body, a body
without status "20000", a body without `last_ary`, or an empty `last_ary`
are each logged and yield None; otherwise the history, latest entry, weight,
its timestamp and the cache stamp are stored and the latest entry returned. -/
def get_measurements_core (out : ReqOutcome) (st : RenphoWeight) (now : Int) :
    Except PyExc (Option MeasurementDetail) × RenphoWeight :=
  match out with
  | .error _ => (.ok none, st)
  | .ok none => (.ok none, st)
  | .ok (some parsed) =>
    if parsed.status_code = some "20000" then
      match parsed.last_ary with
      | none => (.ok none, st)
      | some ms =>
        match ms with
        | [] => (.ok none, st)
        | m :: _ =>
          let st2 : RenphoWeight :=
            { st with
              weight_history := ms, weight_info := some m, weight := some m.weight,
              time_stamp := some m.time_stamp, last_updated_weight := some now }
          (.ok (some m), st2)
    else (.ok none, st)

/-- Body of `get_device_info` (api_renpho.py lines 383-409) applied to the
outcome of its `_request` call. -/
def get_device_info_core (out : ReqOutcome) (st : RenphoWeight) :
    Except PyExc (Option (List DeviceBind)) × RenphoWeight :=
  match out with
  | .error _ => (.ok none, st)
  | .ok none => (.ok none, st)
  | .ok (some parsed) =>
    if parsed.status_code = some "20000" ∧ parsed.device_binds_ary.isSome then
      let ds := parsed.device_binds_ary.getD []
      (.ok (some ds), { st with device_info := some ds })
    else (.ok none, st)

/-- Body of `list_girth` (api_renpho.py lines 433-453) applied to the outcome
of its `_request` call; on success the parsed `girths` list is cached with a
fresh timestamp. -/
def list_girth_core (out : ReqOutcome) (st : RenphoWeight) (now : Int) :
    Except PyExc (Option (List GirthEntry)) × RenphoWeight :=
  match out with
  | .error _ => (.ok none, st)
  | .ok none => (.ok none, st)
  | .ok (some parsed) =>
    if parsed.status_code = some "20000" then
      let gs := parsed.girths.getD []
      (.ok (some gs), { st with girth_info := some gs, last_updated_girth := some now })
    else (.ok none, st)

/-- Body of `list_girth_goal` (api_renpho.py lines 455-477) applied to the
outcome of its `_request` call. -/
def list_girth_goal_core (out : ReqOutcome) (st : RenphoWeight) (now : Int) :
    Except PyExc (Option (List GirthGoalEntry)) × RenphoWeight :=
  match out with
  | .error _ => (.ok none, st)
  | .ok none => (.ok none, st)
  | .ok (some parsed) =>
    if parsed.status_code = some "20000" then
      let gs := parsed.girth_goals.getD []
      (.ok (some gs), { st with girth_goal := some gs, last_updated_girth_goal := some now })
    else (.ok none, st)

/-- Body of `list_growth_record` (api_renpho.py lines 479-501) applied to the
outcome of its `_request` call; the raw parsed body is cached. -/
def list_growth_record_core (out : ReqOutcome) (st : RenphoWeight) (now : Int) :
    Except PyExc (Option ApiResponse) × RenphoWeight :=
  match out with
  | .error _ => (.ok none, st)
  | .ok none => (.ok none, st)
  | .ok (some parsed) =>
    if parsed.status_code = some "20000" then
      (.ok (some parsed),
        { st with growth_record := some parsed, last_updated_growth_record := some now })
    else (.ok none, st)

/-- Body of `message_list` (api_renpho.py lines 503-521) applied to the
outcome of its `_request` call; nothing is cached. -/
def message_list_core (out : ReqOutcome) (st : RenphoWeight) :
    Except PyExc (Option ApiResponse) × RenphoWeight :=
  match out with
  | .error _ => (.ok none, st)
  | .ok none => (.ok none, st)
  | .ok (some parsed) =>
    if parsed.status_code = some "20000" then (.ok (some parsed), st)
    else (.ok none, st)

/-- `get_measurements` end to end: issue the `_request` (with the default
budget of 3 and `skip_auth=True`, as every fetcher does) and run the body on
its outcome. -/
def get_measurements (st : RenphoWeight) (env : NetEnv) (now : Int) :
    Except PyExc (Option MeasurementDetail) × RenphoWeight × NetEnv :=
  match request st env 3 true false with
  | ⟨out, st1, env1, _, _, _⟩ =>
    match get_measurements_core out st1 now with
    | (res, st2) => (res, st2, env1)

/-- `get_info` (api_renpho.py lines 379-381): stamp the weight cache time and
run `get_measurements`. -/
def get_info (st : RenphoWeight) (env : NetEnv) (now : Int) :
    Except PyExc (Option MeasurementDetail) × RenphoWeight × NetEnv :=
  get_measurements { st with last_updated_weight := some now } env now

/-- `list_girth` end to end. -/
def list_girth (st : RenphoWeight) (env : NetEnv) (now : Int) :
    Except PyExc (Option (List GirthEntry)) × RenphoWeight × NetEnv :=
  match request st env 3 true false with
  | ⟨out, st1, env1, _, _, _⟩ =>
    match list_girth_core out st1 now with
    | (res, st2) => (res, st2, env1)

/-- `list_girth_goal` end to end. -/
def list_girth_goal (st : RenphoWeight) (env : NetEnv) (now : Int) :
    Except PyExc (Option (List GirthGoalEntry)) × RenphoWeight × NetEnv :=
  match request st env 3 true false with
  | ⟨out, st1, env1, _, _, _⟩ =>
    match list_girth_goal_core out st1 now with
    | (res, st2) => (res, st2, env1)

/-- `poll_data` (api_renpho.py lines 611-624): sequentially await the weight,
girth and girth-goal fetches; the surrounding `try`/`except Exception` then
catches the TypeError that `asyncio.gather` raises on the already-awaited
results, so cache effects persist and nothing propagates. -/
def poll_data (st : RenphoWeight) (env : NetEnv) (now : Int) : RenphoWeight × NetEnv :=
  match get_info st env now with
  | (_, st1, env1) =>
    match list_girth st1 env1 now with
    | (_, st2, env2) =>
      match list_girth_goal st2 env2 now with
      | (_, st3, env3) => (st3, env3)

/-- How `polling_loop` ended. -/
inductive LoopEnd where
  | exitedNormally
  | caughtError (e : PyExc)
  | outOfFuel
deriving Repr, DecidableEq

/-- Result of running `polling_loop`: how it ended, how many `poll_data`
cycles ran, and the final instance. -/
structure LoopResult where
  done : LoopEnd
  cycles : Nat
  st : RenphoWeight

/-- `polling_loop` (api_renpho.py lines 637-650) with explicit fuel bounding
the number of iterations observed. Each iteration checks
`is_polling_active`, runs `poll_data`, then evaluates
`asyncio.sleep(self.refresh_interval)`; since no attribute
`refresh_interval` is ever assigned, that lookup raises AttributeError
whenever the field is `none`, which the loop's `except Exception` catches
and logs — and the loop exits through the `finally`. -/
def polling_loop_aux : Nat → RenphoWeight → NetEnv → Int → Nat → LoopResult
  | 0, st, _, _, cycles => ⟨LoopEnd.outOfFuel, cycles, st⟩
  | fuel + 1, st, env, now, cycles =>
    if st.is_polling_active = false then ⟨LoopEnd.exitedNormally, cycles, st⟩
    else
      match poll_data st env now with
      | (st1, env1) =>
        match st1.refresh_interval with
        | none =>
          ⟨LoopEnd.caughtError ⟨"AttributeError",
            "RenphoWeight object has no attribute refresh_interval"⟩, cycles + 1, st1⟩
        | some _ => polling_loop_aux fuel st1 env1 now (cycles + 1)

/-- `polling_loop` started with a zero cycle count. -/
def polling_loop (fuel : Nat) (st : RenphoWeight) (env : NetEnv) (now : Int) : LoopResult :=
  polling_loop_aux fuel st env now 0

/-- `start_polling` (api_renpho.py lines 626-635): warn and return unchanged
when already active, otherwise mark active and schedule the polling task.
The second component lists emitted warnings. -/
def start_polling (st : RenphoWeight) : RenphoWeight × List String :=
  if st.is_polling_active then (st, ["Polling is already active."])
  else ({ st with is_polling_active := true, polling_task := some 0 }, [])

/-- `stop_polling` (api_renpho.py lines 652-664): warn and return unchanged
when not active; otherwise, when a task exists, cancel it and mark inactive.
The second component lists emitted warnings. -/
def stop_polling (st : RenphoWeight) : RenphoWeight × List String :=
  if st.is_polling_active = false then (st, ["Polling is not active."])
  else
    match st.polling_task with
    | some _ => ({ st with is_polling_active := false, polling_task := none }, [])
    | none => (st, [])

/-- Descending-timestamp order between girth entries. -/
def tsGE (a b : GirthEntry) : Prop := b.time_stamp ≤ a.time_stamp

/-- A `_request` outcome the spec calls "no data": a raised exception, an
absent body, or a body whose vendor status is not the success code. -/
def reqOutcomeBad (out : ReqOutcome) : Prop :=
  (∃ e, out = .error e) ∨ out = .ok none ∨
    ∃ r, out = .ok (some r) ∧ r.status_code ≠ some "20000"

/-- A successful sign-in response body used by scripted environments. -/
def okSignin : ApiResponse :=
  { emptyResp with
    status_code := some "20000", status_message := some "ok",
    terminal_user_session_key := some "tok2", id := some 7 }

/-- A session-expired response body (vendor status "40302"). -/
def expiredBody : ApiResponse := { emptyResp with status_code := some "40302" }

/-- A bare success response body (vendor status "20000"/"ok"). -/
def okBody : ApiResponse :=
  { emptyResp with status_code := some "20000", status_message := some "ok" }

/-- A client that already holds a session token, with valid credentials. -/
def readySt : RenphoWeight :=
  { RenphoWeight.init "user@example.com" "secret" PyVal.pynone 60 none with
    token := some "tok0" }

/-- The login payload of the C5 scenario. -/
def c5payload : ApiResponse :=
  { emptyResp with
    status_code := some "20000", status_message := some "ok",
    terminal_user_session_key := some "abc", id := some 42 }

/-- The result of the C5 login scenario: fresh client, no configured user
id, one successful proxy probe, one sign-in POST answered by `c5payload`. -/
def c5res : AuthResult :=
  auth (RenphoWeight.init "user@example.com" "secret" PyVal.pynone 60 none)
    ⟨[true], [HttpOutcome.body c5payload], []⟩

/-- Environment for one session-expired response followed by a body `r2`:
proxy probes for the initial check and the two `auth()` calls, two
successful sign-ins for those calls. -/
def c3env (r2 : ApiResponse) : NetEnv :=
  ⟨[true, true, true], [HttpOutcome.body okSignin, HttpOutcome.body okSignin],
    [HttpOutcome.body expiredBody, HttpOutcome.body r2]⟩

/-- The C3 scenario: a fetch on a client with a live token whose first
response is session-expired and whose retry succeeds. -/
def c3res : ReqResult := request readySt (c3env okBody) 3 true false

/-- Environment for a run in which every response within the budget is
session-expired: six proxy probes (initial check plus five `auth()` calls)
and five successful sign-ins. -/
def c10env (b1 b2 b3 : ApiResponse) : NetEnv :=
  ⟨List.replicate 6 true, List.replicate 5 (HttpOutcome.body okSignin),
    [HttpOutcome.body b1, HttpOutcome.body b2, HttpOutcome.body b3]⟩

/-- A successful measurement-list response body. -/
def measBody : ApiResponse :=
  { emptyResp with
    status_code := some "20000", status_message := some "ok",
    last_ary := some [⟨70, 1700000000, "model-A"⟩] }

/-- A successful girth-list response body. -/
def girthBody : ApiResponse :=
  { emptyResp with
    status_code := some "20000", status_message := some "ok",
    girths := some [⟨[("waist_value", some 80)], 100⟩] }

/-- A successful girth-goal-list response body. -/
def goalBody : ApiResponse :=
  { emptyResp with
    status_code := some "20000", status_message := some "ok",
    girth_goals := some [⟨"waist", some 75, 50⟩] }

/-- The client of the C2 scenario: freshly constructed, then started. -/
def c2st : RenphoWeight :=
  (start_polling (RenphoWeight.init "user@example.com" "secret" PyVal.pynone 60 none)).1

/-- A fully healthy network for one poll cycle: the first fetch's proxy
probe, its `auth()` (probe plus sign-in), and one probe and one successful
body for each of the three fetches. -/
def c2env : NetEnv :=
  ⟨[true, true, true, true], [HttpOutcome.body okSignin],
    [HttpOutcome.body measBody, HttpOutcome.body girthBody, HttpOutcome.body goalBody]⟩

theorem mem_insertByTs {x a : GirthEntry} {l : List GirthEntry} :
    a ∈ insertByTs x l ↔ a = x ∨ a ∈ l := by
  induction l with
  | nil => simp [insertByTs]
  | cons y ys ih =>
    unfold insertByTs
    by_cases h : y.time_stamp ≤ x.time_stamp
    · simp [h]
    · simp only [if_neg h, List.mem_cons, ih]
      tauto

theorem mem_sortByTsDesc {a : GirthEntry} {l : List GirthEntry} :
    a ∈ sortByTsDesc l ↔ a ∈ l := by
  induction l with
  | nil => simp [sortByTsDesc]
  | cons y ys ih =>
    show a ∈ insertByTs y (sortByTsDesc ys) ↔ _
    rw [mem_insertByTs, ih]
    simp

theorem pairwise_insertByTs {x : GirthEntry} {l : List GirthEntry}
    (h : l.Pairwise tsGE) : (insertByTs x l).Pairwise tsGE := by
  induction l with
  | nil => simp [insertByTs, tsGE]
  | cons y ys ih =>
    rw [List.pairwise_cons] at h
    unfold insertByTs
    by_cases hle : y.time_stamp ≤ x.time_stamp
    · rw [if_pos hle, List.pairwise_cons]
      refine ⟨?_, List.pairwise_cons.mpr h⟩
      intro b hb
      rcases List.mem_cons.mp hb with rfl | hb
      · exact hle
      · exact le_trans (h.1 b hb) hle
    · rw [if_neg hle, List.pairwise_cons]
      refine ⟨?_, ih h.2⟩
      intro b hb
      rcases mem_insertByTs.mp hb with rfl | hb
      · exact le_of_not_le hle
      · exact h.1 b hb

theorem pairwise_sortByTsDesc (l : List GirthEntry) :
    (sortByTsDesc l).Pairwise tsGE := by
  induction l with
  | nil => simp [sortByTsDesc]
  | cons y ys ih => exact pairwise_insertByTs ih

theorem girthQualifies_iff {m : String} {g : GirthEntry} :
    girthQualifies m g = true ↔
      ∃ v : ℚ, getattrD g (m ++ "_value") none = some v ∧ v ≠ 0 := by
  unfold girthQualifies getattrD
  cases h : g.values.lookup (m ++ "_value") with
  | none => simp
  | some o =>
    cases o with
    | none => simp
    | some v => simp

theorem firstGirthValue_cons_of_qualifies {m : String} {g : GirthEntry}
    (gs : List GirthEntry) (h : girthQualifies m g = true) :
    ∃ v : ℚ, getattrD g (m ++ "_value") none = some v ∧ v ≠ 0 ∧
      firstGirthValue m (g :: gs) = some v := by
  obtain ⟨v, hv, hv0⟩ := girthQualifies_iff.mp h
  refine ⟨v, hv, hv0, ?_⟩
  unfold firstGirthValue
  rw [hv]
  simp [hv0]

/-- C1: for every cached girth dataset, `get_specific_metric("girth", m)`
returns the `m_value` of an entry with maximal `time_stamp` among entries
whose `m_value` is present and non-zero, and returns absent exactly when no
entry qualifies; on the concrete dataset (waist 80 at ts 100, waist 0 at
ts 200) it returns 80. -/
theorem claim_C1 (m : String) (gi : List GirthEntry) :
    (get_specific_metric_girth m gi = none ↔ ∀ g ∈ gi, girthQualifies m g = false) ∧
    (∀ v : ℚ, get_specific_metric_girth m gi = some v →
      ∃ g ∈ gi, girthQualifies m g = true ∧ getattrD g (m ++ "_value") none = some v ∧
        ∀ g2 ∈ gi, girthQualifies m g2 = true → g2.time_stamp ≤ g.time_stamp) ∧
    get_specific_metric_girth "waist"
      [⟨[("waist_value", some 80)], 100⟩, ⟨[("waist_value", some 0)], 200⟩] = some 80 := by
  refine ⟨?_, ?_, by decide⟩
  · unfold get_specific_metric_girth
    by_cases hgi : gi.isEmpty
    · rw [if_pos hgi]
      rw [List.isEmpty_iff] at hgi
      subst hgi
      simp
    · rw [if_neg hgi]
      cases hs : sortByTsDesc (gi.filter (girthQualifies m)) with
      | nil =>
        constructor
        · intro _ g hg
          by_contra hq
          have hmem : g ∈ gi.filter (girthQualifies m) :=
            List.mem_filter.mpr ⟨hg, by simpa using hq⟩
          have : g ∈ sortByTsDesc (gi.filter (girthQualifies m)) := mem_sortByTsDesc.mpr hmem
          rw [hs] at this
          simp at this
        · intro _
          rfl
      | cons h t =>
        have hh : h ∈ gi.filter (girthQualifies m) := by
          have : h ∈ sortByTsDesc (gi.filter (girthQualifies m)) := by
            rw [hs]; exact List.mem_cons_self h t
          exact mem_sortByTsDesc.mp this
        have hq : girthQualifies m h = true := (List.mem_filter.mp hh).2
        obtain ⟨v, _, _, hfst⟩ := firstGirthValue_cons_of_qualifies t hq
        rw [hfst]
        constructor
        · intro hc; cases hc
        · intro hall
          have := hall h (List.mem_filter.mp hh).1
          rw [hq] at this
          cases this
  · intro v hv
    unfold get_specific_metric_girth at hv
    by_cases hgi : gi.isEmpty
    · rw [if_pos hgi] at hv; cases hv
    · rw [if_neg hgi] at hv
      cases hs : sortByTsDesc (gi.filter (girthQualifies m)) with
      | nil =>
        rw [hs] at hv
        cases hv
      | cons h t =>
        rw [hs] at hv
        have hh : h ∈ gi.filter (girthQualifies m) := by
          have : h ∈ sortByTsDesc (gi.filter (girthQualifies m)) := by
            rw [hs]; exact List.mem_cons_self h t
          exact mem_sortByTsDesc.mp this
        have hq : girthQualifies m h = true := (List.mem_filter.mp hh).2
        obtain ⟨w, hw, hw0, hfst⟩ := firstGirthValue_cons_of_qualifies t hq
        rw [hfst] at hv
        obtain rfl : w = v := by injection hv
        refine ⟨h, (List.mem_filter.mp hh).1, hq, hw, ?_⟩
        intro g2 hg2 hq2
        have hmem2 : g2 ∈ gi.filter (girthQualifies m) :=
          List.mem_filter.mpr ⟨hg2, by simpa using hq2⟩
        have hsorted : (sortByTsDesc (gi.filter (girthQualifies m))).Pairwise tsGE :=
          pairwise_sortByTsDesc _
        rw [hs, List.pairwise_cons] at hsorted
        have : g2 ∈ sortByTsDesc (gi.filter (girthQualifies m)) := mem_sortByTsDesc.mpr hmem2
        rw [hs] at this
        rcases List.mem_cons.mp this with rfl | hmem3
        · exact le_refl _
        · exact hsorted.1 g2 hmem3

/-- Witness for C1: on the concrete dataset the returned value 80 comes from
a qualifying entry of maximal timestamp. -/
theorem claim_C1_witness :
    ∃ g ∈ ([⟨[("waist_value", some 80)], 100⟩,
            ⟨[("waist_value", some 0)], 200⟩] : List GirthEntry),
      girthQualifies "waist" g = true ∧
      getattrD g ("waist" ++ "_value") none = some 80 ∧
      ∀ g2 ∈ ([⟨[("waist_value", some 80)], 100⟩,
               ⟨[("waist_value", some 0)], 200⟩] : List GirthEntry),
        girthQualifies "waist" g2 = true → g2.time_stamp ≤ g.time_stamp :=
  (claim_C1 "waist" [⟨[("waist_value", some 80)], 100⟩,
      ⟨[("waist_value", some 0)], 200⟩]).2.1 80 (by decide)

theorem auth_of_in_progress (st : RenphoWeight) (env : NetEnv)
    (h : st.auth_in_progress = true) :
    auth st env = { ret := .ok (some false), st := st, env := env, netRequests := 0 } := by
  unfold auth
  rw [if_pos h]

/-- C4: a call to `auth` (no authentication already in flight) with an empty
email or an empty password fails with AuthenticationError and performs no
network request (no proxy probe and no sign-in POST). -/
theorem claim_C4 (st : RenphoWeight) (env : NetEnv)
    (hflag : st.auth_in_progress = false)
    (hempty : st.email = "" ∨ st.password = "") :
    (auth st env).ret = .error ⟨"AuthenticationError",
      "Email and password are required for authentication."⟩ ∧
    (auth st env).netRequests = 0 ∧ (auth st env).env = env := by
  unfold auth
  rw [hflag]
  simp only [Bool.false_eq_true, if_false]
  rw [if_pos (show ({ st with auth_in_progress := true } : RenphoWeight).email = "" ∨
      ({ st with auth_in_progress := true } : RenphoWeight).password = "" from hempty)]
  exact ⟨rfl, rfl, rfl⟩

/-- Witness for C4 at a concrete client with an empty email. -/
theorem claim_C4_witness :
    (auth (RenphoWeight.init "" "pw" PyVal.pynone 60 none) ⟨[], [], []⟩).ret
      = .error ⟨"AuthenticationError",
          "Email and password are required for authentication."⟩ ∧
    (auth (RenphoWeight.init "" "pw" PyVal.pynone 60 none) ⟨[], [], []⟩).netRequests = 0 ∧
    (auth (RenphoWeight.init "" "pw" PyVal.pynone 60 none) ⟨[], [], []⟩).env = ⟨[], [], []⟩ :=
  claim_C4 (RenphoWeight.init "" "pw" PyVal.pynone 60 none) ⟨[], [], []⟩ rfl (Or.inl rfl)

/-- C5: with the login payload `{status_code:"20000", status_message:"ok",
terminal_user_session_key:"abc", id:42}` and no user id configured, `auth`
stores token "abc", adopts user id 42, and returns True. -/
theorem claim_C5 :
    c5res.ret = .ok (some true) ∧ c5res.st.token = some "abc" ∧
      c5res.st.user_id = PyVal.pyint 42 :=
  ⟨rfl, rfl, rfl⟩

/-- C9: when `auth` raises before its attempt loop (empty credentials, a
missing public key, or a failing `encrypt_password`), the raise happens after
`auth_in_progress` was set and outside the loop's `finally`, so the flag
stays true; every subsequent `auth` call then returns False immediately,
with no exception, no state change and no network activity. -/
theorem claim_C9 (st : RenphoWeight) (env env2 : NetEnv)
    (hflag : st.auth_in_progress = false)
    (hbad : st.email = "" ∨ st.password = "" ∨ st.public_key = none ∨
      ∃ pk e, st.public_key = some pk ∧ encrypt_password pk st.password = .error e) :
    (∃ e, (auth st env).ret = .error e) ∧
    (auth st env).st.auth_in_progress = true ∧
    auth (auth st env).st env2 =
      { ret := .ok (some false), st := (auth st env).st, env := env2, netRequests := 0 } := by
  have hmain : (∃ e, (auth st env).ret = .error e) ∧
      (auth st env).st.auth_in_progress = true := by
    unfold auth
    rw [hflag]
    simp only [Bool.false_eq_true, if_false]
    by_cases hcred : ({ st with auth_in_progress := true } : RenphoWeight).email = "" ∨
        ({ st with auth_in_progress := true } : RenphoWeight).password = ""
    · rw [if_pos hcred]
      exact ⟨⟨_, rfl⟩, rfl⟩
    · rw [if_neg hcred]
      rcases hbad with he | hp | hk | ⟨pk, e, hpk, henc⟩
      · exact absurd (Or.inl he) hcred
      · exact absurd (Or.inr hp) hcred
      · rw [show ({ st with auth_in_progress := true } : RenphoWeight).public_key = none from hk]
        exact ⟨⟨_, rfl⟩, rfl⟩
      · rw [show ({ st with auth_in_progress := true } : RenphoWeight).public_key = some pk
            from hpk]
        simp only [henc]
        exact ⟨⟨_, rfl⟩, trivial⟩
  exact ⟨hmain.1, hmain.2, auth_of_in_progress _ _ hmain.2⟩

/-- Witness for C9 at a concrete client with an empty email: the first call
raises, leaves the flag set, and the second call returns False untouched. -/
theorem claim_C9_witness :
    (∃ e, (auth (RenphoWeight.init "" "pw" PyVal.pynone 60 none) ⟨[], [], []⟩).ret
        = .error e) ∧
    (auth (RenphoWeight.init "" "pw" PyVal.pynone 60 none) ⟨[], [], []⟩).st.auth_in_progress
        = true ∧
    auth (auth (RenphoWeight.init "" "pw" PyVal.pynone 60 none) ⟨[], [], []⟩).st ⟨[], [], []⟩ =
      { ret := .ok (some false),
        st := (auth (RenphoWeight.init "" "pw" PyVal.pynone 60 none) ⟨[], [], []⟩).st,
        env := ⟨[], [], []⟩, netRequests := 0 } :=
  claim_C9 (RenphoWeight.init "" "pw" PyVal.pynone 60 none) ⟨[], [], []⟩ ⟨[], [], []⟩
    rfl (Or.inl rfl)

/-- Counterexample to C3: on a request whose first response is
session-expired and whose retry succeeds, the code performs TWO `auth()`
invocations for the single expired response — one in the "40302" branch and
one at the top of the retried iteration, because that branch also clears
`skip_auth` — not exactly one. -/
theorem claim_C3_counterexample :
    c3res.ret = .ok (some okBody) ∧ c3res.httpRequests = 2 ∧
      c3res.authCalls = 2 ∧ c3res.authCalls ≠ 1 :=
  ⟨rfl, rfl, rfl, by decide⟩

/-- C3 (amended): a session-expired response triggers exactly one retry of
the original request, decrementing the shared budget of 3 by one, but TWO
re-authentication attempts (the "40302" branch authenticates and clears
`skip_auth`, so the retried iteration authenticates again at the top of the
loop) before the retry either succeeds or the budget is exhausted. -/
theorem claim_C3 (r2 : ApiResponse) (h20 : r2.status_code = some "20000")
    (hok : r2.status_message = some "ok") :
    (request readySt (c3env r2) 3 true false).ret = .ok (some r2) ∧
    (request readySt (c3env r2) 3 true false).httpRequests = 2 ∧
    (request readySt (c3env r2) 3 true false).authCalls = 2 ∧
    (request readySt (c3env r2) 3 true false).retriesLeft = 2 := by
  obtain ⟨sc, sm, k, i, la, db, gs, gg⟩ := r2
  simp only at h20 hok
  subst h20
  subst hok
  exact ⟨rfl, rfl, rfl, rfl⟩

/-- Witness for C3 (amended) at the concrete success body. -/
theorem claim_C3_witness :
    (request readySt (c3env okBody) 3 true false).ret = .ok (some okBody) ∧
    (request readySt (c3env okBody) 3 true false).httpRequests = 2 ∧
    (request readySt (c3env okBody) 3 true false).authCalls = 2 ∧
    (request readySt (c3env okBody) 3 true false).retriesLeft = 2 :=
  claim_C3 okBody rfl rfl

/-- C10: when every response within `_request`'s budget carries the
session-expired status (and every re-authentication succeeds), the three
attempts consume the whole budget, the `while` loop falls through, and the
call returns Python None — no APIError or AuthenticationError is raised. -/
theorem claim_C10 (b1 b2 b3 : ApiResponse)
    (h1 : b1.status_code = some "40302")
    (h2 : b2.status_code = some "40302")
    (h3 : b3.status_code = some "40302") :
    (request readySt (c10env b1 b2 b3) 3 true false).ret = .ok none ∧
    (request readySt (c10env b1 b2 b3) 3 true false).httpRequests = 3 ∧
    (request readySt (c10env b1 b2 b3) 3 true false).retriesLeft = 0 := by
  obtain ⟨sc1, sm1, k1, i1, la1, db1, gs1, gg1⟩ := b1
  obtain ⟨sc2, sm2, k2, i2, la2, db2, gs2, gg2⟩ := b2
  obtain ⟨sc3, sm3, k3, i3, la3, db3, gs3, gg3⟩ := b3
  simp only at h1 h2 h3
  subst h1
  subst h2
  subst h3
  exact ⟨rfl, rfl, rfl⟩

/-- Witness for C10 at three concrete session-expired bodies. -/
theorem claim_C10_witness :
    (request readySt (c10env expiredBody expiredBody expiredBody) 3 true false).ret
        = .ok none ∧
    (request readySt (c10env expiredBody expiredBody expiredBody) 3 true false).httpRequests
        = 3 ∧
    (request readySt (c10env expiredBody expiredBody expiredBody) 3 true false).retriesLeft
        = 0 :=
  claim_C10 expiredBody expiredBody expiredBody rfl rfl rfl

/-- C2 (code bug): `__init__` assigns `self.refresh` but `polling_loop`
sleeps on `self.refresh_interval`, an attribute that is never assigned
anywhere, so on a freshly started poller — even with a fully healthy network
— the first cycle's sleep raises AttributeError; the loop-level
`except Exception` catches it and the loop exits after exactly one cycle
instead of sleeping for the configured interval and continuing, whatever
fuel it is given. -/
theorem claim_C2 (fuel : Nat) (now : Int) :
    c2st.refresh = 60 ∧ c2st.refresh_interval = none ∧
    c2st.is_polling_active = true ∧
    (polling_loop (fuel + 1) c2st c2env now).done =
      LoopEnd.caughtError ⟨"AttributeError",
        "RenphoWeight object has no attribute refresh_interval"⟩ ∧
    (polling_loop (fuel + 1) c2st c2env now).cycles = 1 :=
  ⟨rfl, rfl, rfl, rfl, rfl⟩

/-- C6: every fetcher body, whatever the outcome of its `_request`, returns
a value (never re-raises past its boundary), and on a "no data" outcome —
a raised exception, an absent body, or a body with a non-success vendor
status — each returns Python None. -/
theorem claim_C6 (out : ReqOutcome) (st : RenphoWeight) (now : Int) :
    ((∃ v, (get_measurements_core out st now).1 = .ok v) ∧
     (∃ v, (get_device_info_core out st).1 = .ok v) ∧
     (∃ v, (list_girth_core out st now).1 = .ok v) ∧
     (∃ v, (list_girth_goal_core out st now).1 = .ok v) ∧
     (∃ v, (list_growth_record_core out st now).1 = .ok v) ∧
     (∃ v, (message_list_core out st).1 = .ok v)) ∧
    (reqOutcomeBad out →
      (get_measurements_core out st now).1 = .ok none ∧
      (get_device_info_core out st).1 = .ok none ∧
      (list_girth_core out st now).1 = .ok none ∧
      (list_girth_goal_core out st now).1 = .ok none ∧
      (list_growth_record_core out st now).1 = .ok none ∧
      (message_list_core out st).1 = .ok none) := by
  cases out with
  | error e =>
    exact ⟨⟨⟨none, rfl⟩, ⟨none, rfl⟩, ⟨none, rfl⟩, ⟨none, rfl⟩, ⟨none, rfl⟩, ⟨none, rfl⟩⟩,
      fun _ => ⟨rfl, rfl, rfl, rfl, rfl, rfl⟩⟩
  | ok o =>
    cases o with
    | none =>
      exact ⟨⟨⟨none, rfl⟩, ⟨none, rfl⟩, ⟨none, rfl⟩, ⟨none, rfl⟩, ⟨none, rfl⟩, ⟨none, rfl⟩⟩,
        fun _ => ⟨rfl, rfl, rfl, rfl, rfl, rfl⟩⟩
    | some r =>
      constructor
      · refine ⟨?_, ?_, ?_, ?_, ?_, ?_⟩
        · simp only [get_measurements_core]
          split
          · split
            · exact ⟨none, rfl⟩
            · split
              · exact ⟨none, rfl⟩
              · exact ⟨_, rfl⟩
          · exact ⟨none, rfl⟩
        · simp only [get_device_info_core]
          split
          · exact ⟨_, rfl⟩
          · exact ⟨none, rfl⟩
        · simp only [list_girth_core]
          split
          · exact ⟨_, rfl⟩
          · exact ⟨none, rfl⟩
        · simp only [list_girth_goal_core]
          split
          · exact ⟨_, rfl⟩
          · exact ⟨none, rfl⟩
        · simp only [list_growth_record_core]
          split
          · exact ⟨_, rfl⟩
          · exact ⟨none, rfl⟩
        · simp only [message_list_core]
          split
          · exact ⟨_, rfl⟩
          · exact ⟨none, rfl⟩
      · intro hbad
        rcases hbad with ⟨e, he⟩ | hnone | ⟨r2, heq, hsc⟩
        · cases he
        · cases hnone
        · have hr : r2 = r := by
            injection heq with h1
            injection h1 with h2
            exact h2.symm
          subst hr
          have hm : (get_measurements_core (.ok (some r2)) st now).1 = .ok none := by
            simp only [get_measurements_core]
            rw [if_neg hsc]
          have hd : (get_device_info_core (.ok (some r2)) st).1 = .ok none := by
            simp only [get_device_info_core]
            rw [if_neg (fun h => hsc h.1)]
          have hg : (list_girth_core (.ok (some r2)) st now).1 = .ok none := by
            simp only [list_girth_core]
            rw [if_neg hsc]
          have hgg : (list_girth_goal_core (.ok (some r2)) st now).1 = .ok none := by
            simp only [list_girth_goal_core]
            rw [if_neg hsc]
          have hgr : (list_growth_record_core (.ok (some r2)) st now).1 = .ok none := by
            simp only [list_growth_record_core]
            rw [if_neg hsc]
          have hml : (message_list_core (.ok (some r2)) st).1 = .ok none := by
            simp only [message_list_core]
            rw [if_neg hsc]
          exact ⟨hm, hd, hg, hgg, hgr, hml⟩

/-- Witness for C6 at the absent-body outcome: every fetcher returns None. -/
theorem claim_C6_witness :
    (get_measurements_core (.ok none) readySt 0).1 = .ok none ∧
    (get_device_info_core (.ok none) readySt).1 = .ok none ∧
    (list_girth_core (.ok none) readySt 0).1 = .ok none ∧
    (list_girth_goal_core (.ok none) readySt 0).1 = .ok none ∧
    (list_growth_record_core (.ok none) readySt 0).1 = .ok none ∧
    (message_list_core (.ok none) readySt).1 = .ok none :=
  (claim_C6 (.ok none) readySt 0).2 (Or.inr (Or.inl rfl))

/-- Counterexample to C7: on a malformed public key the encryptor fails by
re-raising the crypto library's ValueError, not an EncryptionError; no
EncryptionError class exists among the module's exception classes. -/
theorem claim_C7_counterexample :
    encrypt_password "not a key" "pw"
        = .error ⟨"ValueError", "RSA key format is not supported"⟩ ∧
    "ValueError" ≠ "EncryptionError" ∧
    "EncryptionError" ∉ renphoExceptionClasses :=
  ⟨rfl, by decide, by decide⟩

/-- C7 (amended): on a malformed key `encrypt_password` fails by re-raising
the underlying library exception (the module defines no EncryptionError
class); it never returns successfully without producing the base64 of the
ciphertext; and when encryption fails inside `auth`, that exception
propagates out of `auth` before any network request, aborting
authentication. -/
theorem claim_C7 (pem pw : String) :
    (rsaImportKey pem = none →
      encrypt_password pem pw = .error ⟨"ValueError", "RSA key format is not supported"⟩) ∧
    (∀ s, encrypt_password pem pw = .ok s →
      ∃ kLen ct, rsaImportKey pem = some kLen ∧
        pkcs1Encrypt kLen (utf8Bytes pw) = some ct ∧ s = b64encode ct) ∧
    (∀ st env e, st.auth_in_progress = false →
      ¬(st.email = "" ∨ st.password = "") → st.public_key = some pem →
      encrypt_password pem st.password = .error e →
      (auth st env).ret = .error e ∧ (auth st env).netRequests = 0) := by
  refine ⟨?_, ?_, ?_⟩
  · intro h
    unfold encrypt_password
    rw [h]
  · intro s hs
    cases hk : rsaImportKey pem with
    | none =>
      simp only [encrypt_password, hk] at hs
      exact Except.noConfusion hs
    | some kLen =>
      simp only [encrypt_password, hk] at hs
      cases hc : pkcs1Encrypt kLen (utf8Bytes pw) with
      | none =>
        simp only [hc] at hs
        exact Except.noConfusion hs
      | some ct =>
        simp only [hc, Except.ok.injEq] at hs
        exact ⟨kLen, ct, rfl, hc, hs.symm⟩
  · intro st env e hflag hcred hpk henc
    unfold auth
    rw [hflag]
    simp only [Bool.false_eq_true, if_false]
    rw [if_neg (show ¬(({ st with auth_in_progress := true } : RenphoWeight).email = "" ∨
        ({ st with auth_in_progress := true } : RenphoWeight).password = "") from hcred)]
    rw [show ({ st with auth_in_progress := true } : RenphoWeight).public_key = some pem
        from hpk]
    simp only [henc]
    exact ⟨trivial, trivial⟩

/-- Witness for C7 at concrete inputs: a malformed key raises ValueError;
the repository's key with password "pw" yields the base64 ciphertext "cHc=";
and a client configured with the malformed key sees `auth` propagate that
ValueError with zero network requests. -/
theorem claim_C7_witness :
    encrypt_password "not a key" "x"
        = .error ⟨"ValueError", "RSA key format is not supported"⟩ ∧
    (∃ kLen ct, rsaImportKey CONF_PUBLIC_KEY = some kLen ∧
      pkcs1Encrypt kLen (utf8Bytes "pw") = some ct ∧ "cHc=" = b64encode ct) ∧
    ((auth { RenphoWeight.init "user@example.com" "pw" PyVal.pynone 60 none with
        public_key := some "not a key" } ⟨[], [], []⟩).ret
          = .error ⟨"ValueError", "RSA key format is not supported"⟩ ∧
     (auth { RenphoWeight.init "user@example.com" "pw" PyVal.pynone 60 none with
        public_key := some "not a key" } ⟨[], [], []⟩).netRequests = 0) :=
  ⟨(claim_C7 "not a key" "x").1 rfl,
   (claim_C7 CONF_PUBLIC_KEY "pw").2.1 "cHc=" rfl,
   (claim_C7 "not a key" "pw").2.2
     { RenphoWeight.init "user@example.com" "pw" PyVal.pynone 60 none with
        public_key := some "not a key" }
     ⟨[], [], []⟩ ⟨"ValueError", "RSA key format is not supported"⟩
     rfl (by decide) rfl rfl⟩

/-- C8: `start_polling` on an already-active poller returns with only a
warning and the state unchanged, and `stop_polling` on an idle poller
likewise; neither transitions the state machine. -/
theorem claim_C8 (st : RenphoWeight) :
    (st.is_polling_active = true →
      start_polling st = (st, ["Polling is already active."])) ∧
    (st.is_polling_active = false →
      stop_polling st = (st, ["Polling is not active."])) := by
  constructor
  · intro h
    unfold start_polling
    rw [if_pos h]
  · intro h
    unfold stop_polling
    rw [if_pos h]

/-- Witness for C8: starting a started client changes nothing, stopping a
fresh (idle) client changes nothing. -/
theorem claim_C8_witness :
    start_polling (start_polling (RenphoWeight.init "e" "p" PyVal.pynone 60 none)).1
        = ((start_polling (RenphoWeight.init "e" "p" PyVal.pynone 60 none)).1,
           ["Polling is already active."]) ∧
    stop_polling (RenphoWeight.init "e" "p" PyVal.pynone 60 none)
        = (RenphoWeight.init "e" "p" PyVal.pynone 60 none, ["Polling is not active."]) :=
  ⟨(claim_C8 (start_polling (RenphoWeight.init "e" "p" PyVal.pynone 60 none)).1).1 rfl,
   (claim_C8 (RenphoWeight.init "e" "p" PyVal.pynone 60 none)).2 rfl⟩

end Renpho
